import Mathlib

/-!
Verification of the core of `mysqlbackup.py`: command construction
(`get_connect_args`, `add_extra_args`, `add_filter_args`, `process_backup`),
the hang watcher (`check_hung`), the failure cleanup
(`delete_fail_backup_file`), and the backup-file naming block of
`parse_mysql_args_from_command_line`.

Strings are modelled as Lean `String`s built by concatenation, mirroring the
source's f-strings; the indentation whitespace that the source's
`.replace('\n', ' ')` turns into runs of spaces is normalised to single
spaces (no property below depends on the exact amount of whitespace).
Substring search, Python's `str.split`, `str.join` and the `sed` deletion
used by the source are embedded as structural functions on `List Char`,
so that every definition evaluates by kernel reduction.
-/

set_option maxRecDepth 16384

/-- `leads pat s` : `pat` is a prefix of `s` (over characters). -/
def leads : List Char → List Char → Bool
  | [], _ => true
  | _ :: _, [] => false
  | a :: as, b :: bs => a == b && leads as bs

/-- `hasSub pat s` : `pat` occurs as a contiguous substring of `s`. -/
def hasSub (pat : List Char) : List Char → Bool
  | [] => pat.isEmpty
  | c :: rest => leads pat (c :: rest) || hasSub pat rest

/-- Newline character (the source splits `mysql` client output on it). -/
def nlC : Char := Char.ofNat 10

/-- Python's `str.split('\n')`: cut at every newline, keeping empty pieces
(the recursive result is always non-empty, so prepending to its head is
exactly the usual character-by-character split). -/
def splitNl : List Char → List (List Char)
  | [] => [[]]
  | c :: cs =>
    if c == nlC then [] :: splitNl cs
    else (c :: (splitNl cs).headD []) :: (splitNl cs).tail

/-- Python's `''.join(...)`: concatenation with no separator (line 208). -/
def pyJoin : List String → String
  | [] => ""
  | s :: rest => s ++ pyJoin rest

/-- `sed -r 's@pat@@g'` on one line: delete every occurrence of `pat`,
left to right, non-overlapping. -/
def sedDel (pat : List Char) : List Char → List Char :=
  go 0
where
  /-- `go skip s` drops the next `skip` characters, then resumes deleting. -/
  go : Nat → List Char → List Char
    | _ + 1, [] => []
    | skip + 1, _ :: rest => go skip rest
    | 0, [] => []
    | 0, c :: rest =>
      if !pat.isEmpty && leads pat (c :: rest) then go (pat.length - 1) rest
      else c :: go 0 rest

/-! ## Data model: the resolved configuration (the `args` namespace object) -/

/-- The four canonical backup tools after alias resolution (lines 145-152). -/
inductive Tool
  | mysqldump
  | mysqlpump
  | mydumper
  | xtrabackup
deriving DecidableEq

/-- `args.tool.name` : the binary name of the tool (line 168 wraps the tool
in a `Path`, whose `.name` is the tool string itself). -/
def Tool.name : Tool → String
  | Tool.mysqldump => "mysqldump"
  | Tool.mysqlpump => "mysqlpump"
  | Tool.mydumper => "mydumper"
  | Tool.xtrabackup => "xtrabackup"

/-- The resolved command-line configuration consumed by the core
(`parse_mysql_args_from_command_line` output). `extra` is the raw
`--extra` list before `add_extra_args` joins it; `backup_file = none`
models the empty default that triggers automatic naming (line 175). -/
structure Args where
  host : String
  port : Nat
  socket : Option String
  user : String
  password : String
  login_path : Option String
  config : Option String
  databases : List String
  tables : List String
  tool : Tool
  backup_dir : String
  backup_file : Option String
  backup_log : String
  extra : List String
  incremental : Bool
  just_insert : Bool
  no_data : Bool
  threads : Nat
  debug : Bool
deriving DecidableEq

/-! ## add_extra_args (lines 207-221) -/

/-- Addition for `--just-insert` (line 212). -/
def justInsertAdd : String := " --skip-add-drop-table --skip-add-locks --no-create-info"

/-- Addition for `--no-data` with mysqldump (lines 215-216). -/
def noDataDump : String :=
  " --no-data --skip-lock-tables --skip-add-drop-database --skip-add-drop-table --skip-add-drop-trigger"

/-- Addition for `--no-data` with mysqlpump (line 218). -/
def noDataPump : String := " --skip-dump-rows"

/-- Addition for `--no-data` with mydumper (line 220). -/
def noDataDumper : String := " --no-data --no-locks"

/-- `add_extra_args` (lines 207-221): joins the `--extra` list with the
empty separator (`"".join`), then appends the tool-specific additions.
The source mutates `args.extra` in place; every later read of `args.extra`
is modelled as a call of this function. -/
def add_extra_args (a : Args) : String :=
  let e := pyJoin a.extra
  if a.tool = Tool.mysqldump ∨ a.tool = Tool.mysqlpump ∨ a.tool = Tool.mydumper then
    let e := if a.just_insert = true ∧ (a.tool = Tool.mysqldump ∨ a.tool = Tool.mysqlpump)
             then e ++ justInsertAdd else e
    let e := if a.no_data = true then
               (if a.tool = Tool.mysqldump then e ++ noDataDump
                else if a.tool = Tool.mysqlpump then e ++ noDataPump
                else e ++ noDataDumper)
             else e
    e
  else e

/-! ## get_connect_args (lines 224-236) -/

/-- `get_connect_args` (lines 224-236). Never reads `args.password`. -/
def get_connect_args (a : Args) : String :=
  (match a.config with
   | some c => " --defaults-file=" ++ c
   | none => "") ++
  (match a.socket with
   | some s => " --socket=" ++ s
   | none => "") ++
  (match a.login_path with
   | some lp => " --login-path=" ++ lp
   | none => " --host=" ++ a.host ++ " --port=" ++ Nat.repr a.port ++ " --user=" ++ a.user)

/-! ## check_hung command strings (lines 239-284) -/

/-- The lock-wait state the polling query matches on (line 246). -/
def ftwrl : String := "FLUSH TABLES WITH READ LOCK"

/-- The watcher's polling command `c_command` (lines 243-247). -/
def check_hung_command (a : Args) : String :=
  "mysql " ++ get_connect_args a ++ " " ++ add_extra_args a ++
  " --skip-column-names -e \"select id from information_schema.processlist where info='" ++
  ftwrl ++ "' and user='" ++ a.user ++ "';\""

/-- `kill_command.format(...)` (lines 248-250 and 267-271). -/
def kill_command_fill (a : Args) (thread_id : String) : String :=
  "mysql " ++ get_connect_args a ++ " " ++ add_extra_args a ++
  " --skip-column-names -e \"kill " ++ thread_id ++ ";\""

/-- The environment passed to every `delegator.run` that talks to the
server (lines 258, 274, 331, 466): only `MYSQL_PWD`. -/
def run_env (a : Args) : List (String × String) := [("MYSQL_PWD", a.password)]

/-! ## pre_backup command strings (lines 300-336) -/

/-- `check_command` on Linux (line 291). -/
def check_command_cmd (c : String) : String := "which " ++ c

/-- The already-running scan plus the connectivity probe (lines 306-327);
the `grep -E '` with no closing quote reproduces the source literally. -/
def pre_backup_commands (a : Args) : List String :=
  [check_command_cmd a.tool.name,
   check_command_cmd ("lz4" ),
   "ps -ef | grep -v grep | grep -E '" ++
     (a.tool.name ++ " " ++ get_connect_args a ++ " " ++ add_extra_args a),
   "mysql " ++ get_connect_args a ++ " " ++ add_extra_args a ++
     " --skip-column-names -e \"select count(concat(table_schema, '.', table_name)) from information_schema.tables where table_schema not in ('sys','information_schema','performance_schema');\""]

/-! ## add_filter_args (lines 339-366) -/

/-- Filter options with xtrabackup abort the run (lines 349-351, 359-362:
an error is logged and `sys.exit(1)` is raised before any command is
built or executed). -/
inductive BuildError
  | unsupportedFilterForTool
deriving DecidableEq

/-- `add_filter_args` (lines 339-366). -/
def add_filter_args (a : Args) : Except BuildError String :=
  let fa1 : Except BuildError String :=
    if a.databases ≠ [] then
      match a.tool with
      | Tool.mysqldump => Except.ok (" --databases " ++ String.intercalate (" " ) a.databases)
      | Tool.mysqlpump => Except.ok (" --include-databases " ++ String.intercalate (" " ) a.databases)
      | Tool.mydumper => Except.ok (" --regex '" ++ String.intercalate ("\\.|" ) a.databases ++ "\\.'")
      | Tool.xtrabackup => Except.error BuildError.unsupportedFilterForTool
    else Except.ok ""
  match fa1 with
  | Except.error e => Except.error e
  | Except.ok f1 =>
    let fa2 : Except BuildError String :=
      if a.tables ≠ [] then
        match a.tool with
        | Tool.mysqldump => Except.ok (f1 ++ " --tables " ++ String.intercalate (" " ) a.tables)
        | Tool.mysqlpump => Except.ok (f1 ++ " --include-tables " ++ String.intercalate (" " ) a.tables)
        | Tool.mydumper => Except.ok (f1 ++ " --tables-list " ++ String.intercalate ("," ) a.tables)
        | Tool.xtrabackup => Except.error BuildError.unsupportedFilterForTool
      else Except.ok f1
    match fa2 with
    | Except.error e => Except.error e
    | Except.ok f2 =>
      Except.ok (if a.databases = [] ∧ a.tables = [] then " --all-databases" else f2)

/-! ## Backup-file naming (lines 175-198) -/

/-- The warning logged when `--incremental` is set but no previous full
backup checkpoint exists (line 192). -/
def incWarning : String := "last fullback does not exists, ignore args: --incremental"

/-- `host.replace('.', '_')` (line 197). -/
def dotsToUnderscores (s : String) : String :=
  String.mk (s.data.map (fun c => if c == ('.' ) then ('_' ) else c))

/-- The backup-file naming block (lines 175-198). `ckpt` is the content
(as lines) of `backup_dir/history/xtrabackup_checkpoints` when that file
exists, `none` otherwise; `hostStr` is the ip-command result (or, on
failure, `args.host`); `dt` the formatted timestamp. Returns the resolved
file name and the warnings logged while naming it. -/
def backup_file_name (a : Args) (ckpt : Option (List String))
    (hostStr dt : String) : String × List String :=
  match a.backup_file with
  | some f => (f, [])
  | none =>
    let sw : String × List String :=
      match a.tool with
      | Tool.xtrabackup =>
        if a.incremental = true then
          match ckpt with
          | some _ => ("incremental.xb", [])
          | none => ("fullback.xb", [incWarning])
        else ("fullback.xb", [])
      | Tool.mydumper => ("stream", [])
      | _ => ("sql.lz4", [])
    (a.backup_dir ++ "/" ++ dotsToUnderscores hostStr ++ "_" ++ Nat.repr a.port ++
       "_" ++ a.tool.name ++ "_" ++ dt ++ "." ++ sw.1, sw.2)

/-! ## process_backup: command construction (lines 406-466) -/

/-- stdout of `grep to_lsn <checkpoints> | sed -r 's@to_lsn = @@g'`
(lines 446-448): the matching lines, each with `to_lsn = ` deleted and a
trailing newline, concatenated. This is `resp.out` on line 452. -/
def get_lsn_out (lines : List String) : String :=
  String.join ((lines.filter (fun l => hasSub ("to_lsn".data) l.data)).map
    (fun l => String.mk (sedDel ("to_lsn = ".data) l.data) ++ "\x0A"))

/-- What `process_backup` has materialised right before `delegator.run`
(line 466): the command string, and the value of `args.extra` at that
point (mutated on line 452 *after* `command` embedded it on line 412). -/
structure Built where
  command : String
  extraAfter : String
deriving DecidableEq

/-- Command construction of `process_backup` (lines 406-466), up to the
`delegator.run` call. `ckpt` is the `history/xtrabackup_checkpoints`
content when the file exists; `bfile` the resolved backup-file path. -/
def process_backup_build (a : Args) (ckpt : Option (List String))
    (bfile : String) : Except BuildError Built :=
  let base := a.tool.name ++ " " ++ get_connect_args a ++ " " ++ add_extra_args a
  let tmp_dir := a.backup_dir ++ "/tmp"
  let history_dir := a.backup_dir ++ "/history"
  match add_filter_args a with
  | Except.error e => Except.error e
  | Except.ok filter_args =>
    match a.tool with
    | Tool.mysqldump =>
      Except.ok
        { command := base ++
            " --master-data=2 --single-transaction --set-gtid-purged=AUTO --skip-tz-utc --complete-insert --hex-blob --default-character-set utf8mb4 --routines --events --triggers --add-drop-table --max-allowed-packet=256M --log-error=" ++
            a.backup_log ++ " " ++ filter_args ++ " | lz4 -z -9 -c > " ++ bfile,
          extraAfter := add_extra_args a }
    | Tool.mysqlpump =>
      Except.ok
        { command := base ++ " --default-parallelism=" ++ Nat.repr a.threads ++
            " --single-transaction --set-gtid-purged=ON --skip-tz-utc --add-drop-table --complete-insert --extended-insert=1000 --hex-blob --default-character-set utf8mb4 --routines --events --triggers --log-error-file=" ++
            a.backup_log ++ " " ++ filter_args ++ " | lz4 -z -9 -c > " ++ bfile,
          extraAfter := add_extra_args a }
    | Tool.mydumper =>
      Except.ok
        { command := base ++ " --threads " ++ Nat.repr a.threads ++
            " --trx-consistency-only --use-savepoints --triggers --events --routines --skip-definer --compress --rows 100000 --skip-tz-utc --complete-insert --set-names utf8mb4 --disk-limits 1024:4096 --logfile " ++
            a.backup_log ++ " -v 3 --stream -o " ++ tmp_dir ++ " > " ++ bfile,
          extraAfter := add_extra_args a }
    | Tool.xtrabackup =>
      let extraAfter :=
        match a.incremental, ckpt with
        | true, some lines => add_extra_args a ++ " --incremental-lsn=" ++ get_lsn_out lines
        | _, _ => add_extra_args a
      let withPw :=
        match a.login_path with
        | none => base ++ " --password=$MYSQL_PWD"
        | some _ => base
      Except.ok
        { command := withPw ++ " --backup --stream=xbstream --compress --compress-threads=" ++
            Nat.repr a.threads ++ " --parallel=" ++ Nat.repr a.threads ++ " --target-dir=" ++
            a.backup_dir ++ " --tmpdir=" ++ tmp_dir ++ " --extra-lsndir=" ++ history_dir ++
            " 2>>" ++ a.backup_log ++ " 1>" ++ bfile,
          extraAfter := extraAfter }

/-- The command of a successful build, `""` on a build error. -/
def builtCommand : Except BuildError Built → String
  | Except.ok b => b.command
  | Except.error _ => ""

/-- The post-build `args.extra` of a successful build, `""` on error. -/
def builtExtra : Except BuildError Built → String
  | Except.ok b => b.extraAfter
  | Except.error _ => ""

/-! ## Execution and failure cleanup (lines 396-403, 465-484) -/

/-- `delete_fail_backup_file` (lines 396-403): unlink the output file,
then `sys.exit(1)` (in the main thread, so the process does exit).
When the file does not exist, Python's `unlink` raises `FileNotFoundError`
instead, which also terminates the process with a non-zero code; `erase`
is then the identity, so the modelled post-state agrees either way. -/
def delete_fail_backup_file (fs : Finset String) (bfile : String) :
    Finset String × Option Nat :=
  (fs.erase bfile, some 1)

/-- Outcome of one `run` of the built command (consumed at line 466 ff). -/
structure BackupResult where
  success : Bool
  returnCode : Nat
deriving DecidableEq

/-- The execution tail of `process_backup` (lines 465-484): given the
child's return code and the filesystem (a set of existing paths), yields
the `BackupResult`, the filesystem afterwards, and `some code` when the
process exits. On success, stream-style tools remove the now-empty tmp
dir (lines 468-469); on failure the partial output file is deleted and
the process exits 1 (lines 471-478). -/
def process_backup_run (tool : Tool) (rc : Nat) (fs : Finset String)
    (bfile tmp_dir : String) : BackupResult × Finset String × Option Nat :=
  if rc = 0 then
    ({ success := true, returnCode := rc },
     (if tool = Tool.mydumper ∨ tool = Tool.xtrabackup then fs.erase tmp_dir else fs),
     none)
  else
    let d := delete_fail_backup_file fs bfile
    ({ success := false, returnCode := rc }, d.1, d.2)

/-! ## The hang watcher (lines 239-284) -/

/-- One row of `information_schema.processlist` as the polling query sees
it: the thread id (a numeric string as the mysql client prints it), the
`info` column and the `user` column. -/
structure Session where
  id : String
  info : String
  user : String
deriving DecidableEq

/-- The rows the polling query returns (lines 245-246): ids of sessions
whose `info` is the backup's `FLUSH TABLES WITH READ LOCK` statement and
whose `user` is the backup's connecting user. -/
def poll_rows (plist : List Session) (u : String) : List String :=
  (plist.filter (fun s => s.info == ftwrl && s.user == u)).map Session.id

/-- `resp.out` of the polling command: one id per line, each newline
terminated (`mysql --skip-column-names` output). -/
def poll_out (plist : List Session) (u : String) : List Char :=
  ((poll_rows plist u).map (fun r => r.data ++ [nlC])).flatten

/-- Lines 260-261: `thread_ids = str(resp.out).split('\n')` followed by
`thread_ids.remove('')` (which drops the first empty entry). -/
def thread_ids (out : List Char) : List (List Char) :=
  (splitNl out).erase []

/-- The ids the watcher issues kill commands for on iteration `i`
(lines 259-271): only on a successful poll past the warm-up
(`i > 3`), and then exactly the parsed `thread_ids`. -/
def kill_ids (i : Nat) (plist : List Session) (u : String) : List (List Char) :=
  if 3 < i then thread_ids (poll_out plist u) else []

/-- The polling loop skeleton (lines 251-284): `i = 1`, `while i < 180`,
one poll and one `time.sleep(1)` per iteration. Each list entry is
`(i, sleep units)`. The fuel argument only bounds the unfolding; the
guard `i < 180` stops the loop first (fuel 180 is enough starting from
`i = 1`). -/
def watcher_loop : Nat → Nat → List (Nat × Nat)
  | 0, _ => []
  | fuel + 1, i => if i < 180 then (i, 1) :: watcher_loop fuel (i + 1) else []

/-- The iterations the watcher actually performs (`i = 1` at line 251). -/
def watcher_iters : List (Nat × Nat) := watcher_loop 180 1

/-- How the watcher thread ends: loop bound reached, or `sys.exit(code)`
raised inside the thread (line 281). -/
inductive WatcherEnd
  | completed
  | sysExit (code : Nat)
deriving DecidableEq

/-- The watcher's control flow over a run in which the poll on iteration
`i` succeeds iff `polls i` (lines 254-283): a failed poll logs the error
and raises `sys.exit(1)` (lines 279-281), ending the loop. -/
def check_hung_run (polls : Nat → Bool) : Nat → Nat → WatcherEnd
  | 0, _ => WatcherEnd.completed
  | fuel + 1, i =>
    if i < 180 then
      if polls i then check_hung_run polls fuel (i + 1) else WatcherEnd.sysExit 1
    else WatcherEnd.completed

/-- `check_hung` outcome for a given poll trace. -/
def check_hung_end (polls : Nat → Bool) : WatcherEnd := check_hung_run polls 180 1

/-- Process exit of `main` (lines 487-495): `check_hung` runs in a daemon
`Thread` (line 491), and CPython's thread bootstrap silently swallows a
`SystemExit` raised in a non-main thread, so the watcher's `sys.exit(1)`
ends only that thread. The process exit code is therefore determined by
the main flow (`process_backup`) alone, whatever the watcher did. -/
def main_exit (_w : WatcherEnd) (backupExit : Option Nat) : Nat :=
  match backupExit with
  | some n => n
  | none => 0

/-! ## Representative configurations -/

/-- A representative resolved configuration (mysqldump, no filters). -/
def cfgBase : Args :=
  { host := "localhost", port := 3306, socket := none, user := "backer",
    password := "secret", login_path := none, config := none,
    databases := [], tables := [], tool := Tool.mysqldump,
    backup_dir := "/data/backups/mysql3306", backup_file := none,
    backup_log := "/app/logs/process_mysql_backup.log",
    extra := [], incremental := false, just_insert := false, no_data := false,
    threads := 4, debug := false }

/-- Same configuration with mysqlpump. -/
def cfgPump : Args := { cfgBase with tool := Tool.mysqlpump }

/-- Same configuration with mydumper. -/
def cfgDumper : Args := { cfgBase with tool := Tool.mydumper }

/-- Same configuration with xtrabackup. -/
def cfgXbk : Args := { cfgBase with tool := Tool.xtrabackup }

/-- A process list with one session waiting in the backup's lock state for
the backup's user, and one unrelated session. -/
def plist0 : List Session :=
  [{ id := "5", info := ftwrl, user := "backer" },
   { id := "7", info := "select 1 from t", user := "app" }]

/-- `cfgBase` with the password set to a string that happens to occur in
every `mysql` invocation. -/
def cfgPw : Args := { cfgBase with password := "mysql" }

/-- mydumper with a database filter. -/
def cfgDumperApp : Args := { cfgDumper with databases := ["app"] }

/-- xtrabackup with `--incremental` and an auto-named backup file. -/
def cfg7 : Args := { cfgXbk with incremental := true }

/-- xtrabackup, `--incremental`, but with an explicit `--backup-file`. -/
def cfg6c : Args := { cfgXbk with incremental := true, backup_file := some "/explicit.xb" }

/-- Content of a `history/xtrabackup_checkpoints` file after a full backup. -/
def ckpt7 : List String := ["backup_type = full-backuped", "to_lsn = 12345"]

/-- Every tool-specific filter flag the builder can emit (lines 339-366). -/
def filterFlagList : List String :=
  ["--databases", "--include-databases", "--regex", "--tables",
   "--include-tables", "--tables-list"]

/-- The four representative no-filter backup commands. -/
def repCommands : List String :=
  [builtCommand (process_backup_build cfgBase none "/bf"),
   builtCommand (process_backup_build cfgPump none "/bf"),
   builtCommand (process_backup_build cfgDumper none "/bf"),
   builtCommand (process_backup_build cfgXbk none "/bf")]

/-! ## Auxiliary string lemmas -/

theorem leads_self_app (p t : List Char) : leads p (p ++ t) = true := by
  induction p with
  | nil => rfl
  | cons c cs ih => simp [leads, ih]

theorem hasSub_self_app (p t : List Char) : hasSub p (p ++ t) = true := by
  cases p with
  | nil =>
    cases t with
    | nil => rfl
    | cons c cs => simp [hasSub, leads]
  | cons c cs => simp [hasSub, leads, leads_self_app]

theorem hasSub_app_left (p x y : List Char) (h : hasSub p y = true) :
    hasSub p (x ++ y) = true := by
  induction x with
  | nil => simpa using h
  | cons c cs ih => simp [hasSub, ih]

theorem hasSub_glue (p x y : List Char) : hasSub p (x ++ (p ++ y)) = true :=
  hasSub_app_left p x (p ++ y) (hasSub_self_app p y)

theorem splitNl_sep (r rest : List Char) (h : nlC ∉ r) :
    splitNl (r ++ nlC :: rest) = r :: splitNl rest := by
  induction r with
  | nil => simp [splitNl]
  | cons c cs ih =>
    have hc : (c == nlC) = false := by
      have hne : c ≠ nlC := fun hceq => h (by simp [hceq])
      simpa [beq_iff_eq] using hne
    have hcs : nlC ∉ cs := fun hm => h (List.mem_cons_of_mem _ hm)
    show splitNl (c :: (cs ++ nlC :: rest)) = (c :: cs) :: splitNl rest
    rw [splitNl, ih hcs]
    simp [hc]

theorem splitNl_encode (rows : List (List Char)) (h : ∀ r ∈ rows, nlC ∉ r) :
    splitNl ((rows.map (fun r => r ++ [nlC])).flatten) = rows ++ [[]] := by
  induction rows with
  | nil => rfl
  | cons r rest ih =>
    have hr : nlC ∉ r := h r (List.mem_cons_self r rest)
    have hrest : ∀ x ∈ rest, nlC ∉ x := fun x hx => h x (List.mem_cons_of_mem _ hx)
    have heq : (((r :: rest).map (fun r => r ++ [nlC])).flatten) =
        r ++ nlC :: ((rest.map (fun r => r ++ [nlC])).flatten) := by
      simp
    rw [heq, splitNl_sep r _ hr, ih hrest]
    simp

theorem erase_nil_of_not_mem (rows : List (List Char)) (h : [] ∉ rows) :
    (rows ++ [[]]).erase [] = rows := by
  induction rows with
  | nil => rfl
  | cons r rest ih =>
    have hr : r ≠ [] := by
      intro hceq
      exact h (hceq ▸ List.mem_cons_self r rest)
    have hrest : [] ∉ rest := fun hm => h (List.mem_cons_of_mem _ hm)
    simp only [List.cons_append, List.erase_cons]
    have : ¬ (r == ([] : List Char)) = true := by
      simp [beq_iff_eq, hr]
    simp [this, ih hrest]

theorem str_data_app (s t : String) : (s ++ t).data = s.data ++ t.data := by
  cases s
  cases t
  rfl

theorem str_app_assoc (a b c : String) : (a ++ b) ++ c = a ++ (b ++ c) := by
  cases a
  cases b
  cases c
  show String.mk _ = String.mk _
  simp

theorem str_app_empty (s : String) : s ++ "" = s := by
  cases s with
  | mk d => exact congrArg String.mk (List.append_nil d)

/-! ## C1: the watcher kill set -/

/-- C1: on every watcher poll iteration, every thread id the watcher
issues a kill command for belongs to a session of the polled process list
whose `info` is the backup's `FLUSH TABLES WITH READ LOCK` statement and
whose `user` is the backup's connecting user; an unrelated session never
appears in the kill set. (Process-list ids are non-empty, newline-free
numeric strings.) -/
theorem watcher_kills_only_backup_lock_sessions
    (i : Nat) (plist : List Session) (u : String) (tid : List Char)
    (hids : ∀ s ∈ plist, s.id.data ≠ [] ∧ nlC ∉ s.id.data)
    (hmem : tid ∈ kill_ids i plist u) :
    ∃ s ∈ plist, s.id.data = tid ∧ s.info = ftwrl ∧ s.user = u := by
  have hrows : ∀ r ∈ (poll_rows plist u).map String.data, r ≠ [] ∧ nlC ∉ r := by
    intro r hr
    rcases List.mem_map.1 hr with ⟨sid, hsid, hdata⟩
    unfold poll_rows at hsid
    rcases List.mem_map.1 hsid with ⟨s, hsf, hid⟩
    have hsp : s ∈ plist := (List.mem_filter.1 hsf).1
    have hprops := hids s hsp
    rw [← hdata, ← hid]
    exact hprops
  have hnil : [] ∉ (poll_rows plist u).map String.data := by
    intro hmm
    exact (hrows [] hmm).1 rfl
  have hthread : thread_ids (poll_out plist u) = (poll_rows plist u).map String.data := by
    unfold thread_ids poll_out
    have hmm : (poll_rows plist u).map (fun r => r.data ++ [nlC]) =
        ((poll_rows plist u).map String.data).map (fun r => r ++ [nlC]) := by
      rw [List.map_map]
      rfl
    rw [hmm, splitNl_encode _ (fun r hr => (hrows r hr).2),
        erase_nil_of_not_mem _ hnil]
  unfold kill_ids at hmem
  by_cases h3 : 3 < i
  · rw [if_pos h3, hthread] at hmem
    rcases List.mem_map.1 hmem with ⟨sid, hsid, hdata⟩
    unfold poll_rows at hsid
    rcases List.mem_map.1 hsid with ⟨s, hsf, hid⟩
    have hsp := List.mem_filter.1 hsf
    have hcond : s.info = ftwrl ∧ s.user = u := by
      have := hsp.2
      simp only [Bool.and_eq_true, beq_iff_eq] at this
      exact this
    exact ⟨s, hsp.1, by rw [hid, hdata], hcond.1, hcond.2⟩
  · rw [if_neg h3] at hmem
    simp at hmem

/-- C1 witness: with one lock-wait session of the backup user and one
unrelated session, the theorem applies to the one id the watcher kills. -/
theorem watcher_kills_only_backup_lock_sessions_witness :
    ∃ s ∈ plist0, s.id.data = ("5".data) ∧ s.info = ftwrl ∧ s.user = "backer" :=
  watcher_kills_only_backup_lock_sessions 4 plist0 ("backer" ) ("5".data)
    (by decide) (by decide)

/-! ## C8: the watcher's iteration bound -/

/-- C8: the watcher polling loop performs at most 180 iterations (it
performs exactly 179: `i = 1` while `i < 180`), sleeps one unit per
iteration, and never polls at or beyond the bound. -/
theorem watcher_iteration_bound :
    watcher_iters.length = 179 ∧
    watcher_iters.length ≤ 180 ∧
    (∀ p ∈ watcher_iters, 1 ≤ p.1 ∧ p.1 < 180 ∧ p.2 = 1) ∧
    (∀ fuel i, 180 ≤ i → watcher_loop fuel i = []) := by
  refine ⟨by decide, by decide, by decide, ?_⟩
  intro fuel i h
  cases fuel with
  | zero => rfl
  | succ f => simp [watcher_loop, Nat.not_lt.2 h]

/-- C8 witness: iteration 5 is within the bound and sleeps one unit, and
a loop started at the bound performs no iteration. -/
theorem watcher_iteration_bound_witness :
    (1 ≤ 5 ∧ 5 < 180 ∧ 1 = 1) ∧ watcher_loop 180 180 = [] :=
  ⟨watcher_iteration_bound.2.2.1 (5, 1) (by decide),
   watcher_iteration_bound.2.2.2 180 180 (by decide)⟩

/-! ## C4: a failed poll does not abort the process -/

/-- C4 (refuting the claim): when the first poll fails, `check_hung`
raises `sys.exit(1)`, but since it runs in a daemon thread the
`SystemExit` ends only the watcher; with a successful backup the process
exit code is 0, so the failure stays confined to the watcher task. -/
theorem watcher_poll_failure_confined_to_thread :
    check_hung_end (fun _ => false) = WatcherEnd.sysExit 1 ∧
    main_exit (check_hung_end (fun _ => false)) none = 0 :=
  ⟨by decide, rfl⟩

/-! ## C5: failure cleanup -/

/-- C5: whenever the backup child exits non-zero, the run reports failure,
the partial output file no longer exists afterwards, and the process
exits with code 1. -/
theorem backup_failure_cleans_partial_file (tool : Tool) (rc : Nat)
    (fs : Finset String) (bfile tmp_dir : String) (h : rc ≠ 0) :
    (process_backup_run tool rc fs bfile tmp_dir).1.success = false ∧
    bfile ∉ (process_backup_run tool rc fs bfile tmp_dir).2.1 ∧
    (process_backup_run tool rc fs bfile tmp_dir).2.2 = some 1 := by
  unfold process_backup_run delete_fail_backup_file
  rw [if_neg h]
  exact ⟨rfl, Finset.not_mem_erase _ _, rfl⟩

/-- C5 witness: a concrete failing run (exit code 2) with the partial
file present beforehand. -/
theorem backup_failure_cleans_partial_file_witness :
    (process_backup_run Tool.mysqldump 2 ({"/bf"} : Finset String) ("/bf" ) ("/tmp" )).1.success = false ∧
    ("/bf" : String) ∉ (process_backup_run Tool.mysqldump 2 ({"/bf"} : Finset String) ("/bf" ) ("/tmp" )).2.1 ∧
    (process_backup_run Tool.mysqldump 2 ({"/bf"} : Finset String) ("/bf" ) ("/tmp" )).2.2 = some 1 :=
  backup_failure_cleans_partial_file Tool.mysqldump 2 {"/bf"} ("/bf" ) ("/tmp" ) (by decide)

/-! ## C9: credential handling -/

/-- C9 amended: no constructed command string depends on the password —
replacing the password by any value leaves the connect args, the watcher
poll and kill commands, the preflight commands, the backup command and
the file naming unchanged — and the password reaches child processes only
through the `MYSQL_PWD` environment variable passed at execution time. -/
theorem password_only_in_environment (a : Args) (p tid bfile hostStr dt : String)
    (ckpt : Option (List String)) :
    get_connect_args { a with password := p } = get_connect_args a ∧
    check_hung_command { a with password := p } = check_hung_command a ∧
    kill_command_fill { a with password := p } tid = kill_command_fill a tid ∧
    pre_backup_commands { a with password := p } = pre_backup_commands a ∧
    process_backup_build { a with password := p } ckpt bfile = process_backup_build a ckpt bfile ∧
    backup_file_name { a with password := p } ckpt hostStr dt = backup_file_name a ckpt hostStr dt ∧
    run_env { a with password := p } = [("MYSQL_PWD", p)] :=
  ⟨rfl, rfl, rfl, rfl, rfl, rfl, rfl⟩

/-- C9 counterexample: with password `"mysql"`, the password value does
occur as a substring of the watcher's poll command (which starts with
`mysql ...`), so the literal "never a substring" reading fails even
though the password is never interpolated. -/
theorem password_occurs_as_substring :
    cfgPw.password = "mysql" ∧
    hasSub cfgPw.password.data (check_hung_command cfgPw).data = true :=
  ⟨rfl, by decide⟩

/-! ## C10: joining of the extra-args list -/

/-- C10: `add_extra_args` joins the user-supplied `--extra` list with the
empty separator, so two adjacent flags are glued into one token at the
front of the result; the tool-specific additions are appended after the
join and each starts with a space. -/
theorem extra_args_joined_without_separator (a : Args) (x y : String)
    (rest : List String) (h : a.extra = x :: y :: rest) :
    leads ((x ++ y).data) ((add_extra_args a).data) = true ∧
    (∃ add, add_extra_args a = pyJoin a.extra ++ add ∧
      (add = "" ∨ leads ((" ").data) add.data = true)) := by
  have hshape : ∃ add, add_extra_args a = pyJoin a.extra ++ add ∧
      (add = "" ∨ leads ((" ").data) add.data = true) := by
    rcases htool : a.tool
    all_goals cases hji : a.just_insert
    all_goals cases hnd : a.no_data
    all_goals simp [add_extra_args, htool, hji, hnd]
    all_goals first
      | exact ⟨"", (str_app_empty _).symm, Or.inl rfl⟩
      | exact ⟨noDataDump, rfl, Or.inr (by decide)⟩
      | exact ⟨justInsertAdd, rfl, Or.inr (by decide)⟩
      | exact ⟨justInsertAdd ++ noDataDump, str_app_assoc _ _ _, Or.inr (by decide)⟩
      | exact ⟨noDataPump, rfl, Or.inr (by decide)⟩
      | exact ⟨justInsertAdd ++ noDataPump, str_app_assoc _ _ _, Or.inr (by decide)⟩
      | exact ⟨noDataDumper, rfl, Or.inr (by decide)⟩
  rcases hshape with ⟨add, hadd, hsp⟩
  refine ⟨?_, ⟨add, hadd, hsp⟩⟩
  rw [hadd, h]
  have hsplit : pyJoin (x :: y :: rest) ++ add = (x ++ y) ++ (pyJoin rest ++ add) := by
    show (x ++ (y ++ pyJoin rest)) ++ add = (x ++ y) ++ (pyJoin rest ++ add)
    rw [str_app_assoc, str_app_assoc, str_app_assoc]
  rw [hsplit, str_data_app]
  exact leads_self_app _ _

/-- C10 witness: two adjacent extra flags are merged into `--a--b`. -/
theorem extra_args_joined_without_separator_witness :
    leads ((("--a" : String) ++ "--b").data)
      ((add_extra_args { cfgBase with extra := ["--a", "--b"] }).data) = true :=
  (extra_args_joined_without_separator { cfgBase with extra := ["--a", "--b"] }
    ("--a" ) ("--b" ) [] rfl).1

/-! ## C2: database filters per tool -/

/-- C2 (code bug, at the failing input): for mydumper with a database
filter, `add_filter_args` does compute the `--regex` filter (and
xtrabackup with a filter aborts with `UnsupportedFilterForTool`), but the
built mydumper command never contains it — `process_backup` does not
interpolate `filter_args` into the mydumper command, so the build equals
the build of the same configuration with no filter at all. -/
theorem mydumper_filter_computed_but_dropped :
    add_filter_args cfgDumperApp = Except.ok (" --regex 'app\\.'") ∧
    hasSub ("--regex".data)
      (builtCommand (process_backup_build cfgDumperApp none "/bf")).data = false ∧
    process_backup_build cfgDumperApp none "/bf" = process_backup_build cfgDumper none "/bf" ∧
    add_filter_args { cfgXbk with databases := ["app"] } =
      Except.error BuildError.unsupportedFilterForTool :=
  ⟨rfl, by decide, rfl, rfl⟩

/-! ## C3: the no-filter case -/

/-- C3 amended: with no database and no table filter, `add_filter_args`
yields the ` --all-databases` string for every tool, and the mysqldump
and mysqlpump commands contain it; the mydumper and xtrabackup commands
do not contain it (checked at the representative configurations), and no
representative command contains any filter flag. -/
theorem no_filter_yields_all_databases (a : Args) (bfile : String)
    (ckpt : Option (List String))
    (hd : a.databases = []) (ht : a.tables = []) :
    add_filter_args a = Except.ok (" --all-databases") ∧
    ((a.tool = Tool.mysqldump ∨ a.tool = Tool.mysqlpump) →
      hasSub (" --all-databases".data)
        (builtCommand (process_backup_build a ckpt bfile)).data = true) ∧
    hasSub (" --all-databases".data)
      (builtCommand (process_backup_build cfgDumper none "/bf")).data = false ∧
    hasSub (" --all-databases".data)
      (builtCommand (process_backup_build cfgXbk none "/bf")).data = false ∧
    (∀ f ∈ filterFlagList, ∀ c ∈ repCommands, hasSub f.data c.data = false) := by
  have hfa : add_filter_args a = Except.ok (" --all-databases") := by
    simp [add_filter_args, hd, ht]
  refine ⟨hfa, ?_, by decide, by decide, by decide⟩
  intro htool
  rcases htool with h | h
  · simp only [process_backup_build, hfa, h, builtCommand, str_data_app,
      List.append_assoc]
    repeat first
      | exact hasSub_self_app _ _
      | apply hasSub_app_left
  · simp only [process_backup_build, hfa, h, builtCommand, str_data_app,
      List.append_assoc]
    repeat first
      | exact hasSub_self_app _ _
      | apply hasSub_app_left

/-- C3 witness: the representative mysqldump configuration. -/
theorem no_filter_yields_all_databases_witness :
    add_filter_args cfgBase = Except.ok (" --all-databases") ∧
    hasSub (" --all-databases".data)
      (builtCommand (process_backup_build cfgBase none "/bf")).data = true :=
  ⟨(no_filter_yields_all_databases cfgBase ("/bf" ) none rfl rfl).1,
   (no_filter_yields_all_databases cfgBase ("/bf" ) none rfl rfl).2.1 (Or.inl rfl)⟩

/-- C3 counterexample: the no-filter mydumper command contains no
`--all-databases` flag, refuting the claim for that tool. -/
theorem stream_tool_command_lacks_all_databases :
    cfgDumper.databases = [] ∧ cfgDumper.tables = [] ∧
    hasSub (" --all-databases".data)
      (builtCommand (process_backup_build cfgDumper none "/bf")).data = false :=
  ⟨rfl, rfl, by decide⟩

/-! ## C6: incremental without a checkpoint -/

/-- C6 amended: with the incremental flag set and no
`xtrabackup_checkpoints` file, the build equals the build of the same
configuration with the flag cleared (so no `--incremental-lsn` is added),
the build succeeds (no error), and the downgrade warning is recorded
exactly when the backup file is auto-named (`backup_file` unset); with an
explicit `--backup-file` the naming block is skipped and no warning is
logged. -/
theorem incremental_without_checkpoint_is_full_backup (a : Args)
    (bfile hostStr dt : String)
    (htool : a.tool = Tool.xtrabackup) (hinc : a.incremental = true)
    (hd : a.databases = []) (ht : a.tables = []) :
    process_backup_build a none bfile =
      process_backup_build { a with incremental := false } none bfile ∧
    (∃ b, process_backup_build a none bfile = Except.ok b ∧
      b.extraAfter = add_extra_args a) ∧
    (a.backup_file = none →
      (backup_file_name a none hostStr dt).2 = [incWarning]) ∧
    (∀ f, a.backup_file = some f → (backup_file_name a none hostStr dt).2 = []) := by
  obtain ⟨h0, p0, s0, u0, pw0, lp0, cf0, db0, tb0, tl0, bd0, bf0, bl0, ex0, inc0, ji0, nd0, th0, dbg0⟩ := a
  dsimp only at htool hinc hd ht
  subst htool hinc hd ht
  refine ⟨rfl, ⟨_, rfl, rfl⟩, ?_, ?_⟩
  · intro hbf
    dsimp only at hbf
    subst hbf
    rfl
  · intro f hbf
    dsimp only at hbf
    subst hbf
    rfl

/-- C6 witness: at the auto-named xtrabackup configuration with
`--incremental` and no checkpoint, the downgrade warning is recorded. -/
theorem incremental_without_checkpoint_is_full_backup_witness :
    (backup_file_name cfg7 none "10.0.0.1" "20250101_000000").2 = [incWarning] :=
  (incremental_without_checkpoint_is_full_backup cfg7 ("/bf" ) ("10.0.0.1" )
    ("20250101_000000" ) rfl rfl rfl rfl).2.2.1 rfl

/-- C6 counterexample: with an explicit `--backup-file`, the incremental
request with no checkpoint still yields a full-backup command without
`--incremental-lsn`, but no warning is recorded anywhere — the warning
only exists inside the automatic file naming block (lines 186-192). -/
theorem incremental_warning_requires_auto_naming :
    cfg6c.tool = Tool.xtrabackup ∧ cfg6c.incremental = true ∧
    (backup_file_name cfg6c none "10.0.0.1" "20250101_000000").2 = [] ∧
    hasSub ("--incremental-lsn".data)
      (builtCommand (process_backup_build cfg6c none "/explicit.xb")).data = false :=
  ⟨rfl, rfl, rfl, by decide⟩

/-! ## C7: incremental with a checkpoint -/

/-- C7 (code bug, at the failing input): with `--incremental` and a
checkpoint containing `to_lsn = 12345`, the extracted grep/sed output is
`"12345\n"` (trailing newline kept), `args.extra` afterwards does contain
`--incremental-lsn=12345` — but the built command does not contain
`--incremental-lsn` at all: the source appends the flag to `args.extra`
on line 452, after line 412 already embedded the old `args.extra` into
`command`, so the flag never reaches the executed command. -/
theorem incremental_lsn_never_reaches_command :
    get_lsn_out ckpt7 = "12345\x0A" ∧
    builtExtra (process_backup_build cfg7 (some ckpt7) "/bf") =
      add_extra_args cfg7 ++ " --incremental-lsn=" ++ get_lsn_out ckpt7 ∧
    hasSub ("--incremental-lsn=12345".data)
      (builtExtra (process_backup_build cfg7 (some ckpt7) "/bf")).data = true ∧
    hasSub ("--incremental-lsn".data)
      (builtCommand (process_backup_build cfg7 (some ckpt7) "/bf")).data = false :=
  ⟨by decide, rfl, by decide, by decide⟩
